import Mathlib

/-!
Verification of the signal-classification and risk-scoring engine of
`src/app.py` (a market trend scanner).  The Python source is shallowly
embedded: prices and indicator values become `ℚ`, pandas series become
`List ℚ` (with missing last elements rendered as `Option ℚ` where the
source catches exceptions), `datetime.date` values become proleptic
Gregorian ordinals over `(year, month, day)` triples, and each source
function becomes a computable Lean definition carrying the source line
numbers in its doc comment.
-/

/-! ### Calendar arithmetic (Python `datetime.date`, proleptic Gregorian) -/

/-- Leap-year test, as in Python `calendar.isleap`. -/
def isLeap (y : ℕ) : Bool := (y % 4 == 0 && y % 100 != 0) || y % 400 == 0

/-- Number of days of month `m` of year `y`, as in Python `calendar.monthrange`. -/
def daysInMonth (y m : ℕ) : ℕ :=
  if m = 2 then (if isLeap y then 29 else 28)
  else if m = 4 ∨ m = 6 ∨ m = 9 ∨ m = 11 then 30
  else 31

/-- Days in all years strictly before year `y` (CPython `_days_before_year`). -/
def daysBeforeYear (y : ℕ) : ℕ :=
  365 * (y - 1) + (y - 1) / 4 - (y - 1) / 100 + (y - 1) / 400

/-- Days of year `y` lying in months strictly before month `m`. -/
def daysBeforeMonth (y m : ℕ) : ℕ :=
  ((List.range (m - 1)).map (fun k => daysInMonth y (k + 1))).sum

/-- Python `date(y, m, d).toordinal()`: day count with `date(1,1,1)` as day 1. -/
def toOrdinal (y m d : ℕ) : ℕ := daysBeforeYear y + daysBeforeMonth y m + d

/-- Python `date.weekday()` of an ordinal: Monday = 0, ..., Sunday = 6
(ordinal 1, i.e. 0001-01-01, is a Monday). -/
def pyWeekday (o : ℕ) : ℕ := (o + 6) % 7

/-- `first_weekday` from `src/app.py` lines 52-61: the first day 1..7 of the
month whose weekday is `w`.  The source loop `for day in range(1, 8)` with an
unreachable fallback to day 1 is unrolled; the day of month is returned (the
source wraps it into a `date`). -/
def first_weekday (y m w : ℕ) : ℕ :=
  if pyWeekday (toOrdinal y m 1) = w then 1
  else if pyWeekday (toOrdinal y m 2) = w then 2
  else if pyWeekday (toOrdinal y m 3) = w then 3
  else if pyWeekday (toOrdinal y m 4) = w then 4
  else if pyWeekday (toOrdinal y m 5) = w then 5
  else if pyWeekday (toOrdinal y m 6) = w then 6
  else if pyWeekday (toOrdinal y m 7) = w then 7
  else 1

/-- `last_weekday` from `src/app.py` lines 64-73: scanning down from the last
day of the month (`calendar.monthrange`), the first day whose weekday is `w`;
fallback (unreachable) is the last day.  The source's `last_day` local is
inlined as `daysInMonth y m`. -/
def last_weekday (y m w : ℕ) : ℕ :=
  if pyWeekday (toOrdinal y m (daysInMonth y m)) = w then daysInMonth y m
  else if pyWeekday (toOrdinal y m (daysInMonth y m - 1)) = w then daysInMonth y m - 1
  else if pyWeekday (toOrdinal y m (daysInMonth y m - 2)) = w then daysInMonth y m - 2
  else if pyWeekday (toOrdinal y m (daysInMonth y m - 3)) = w then daysInMonth y m - 3
  else if pyWeekday (toOrdinal y m (daysInMonth y m - 4)) = w then daysInMonth y m - 4
  else if pyWeekday (toOrdinal y m (daysInMonth y m - 5)) = w then daysInMonth y m - 5
  else if pyWeekday (toOrdinal y m (daysInMonth y m - 6)) = w then daysInMonth y m - 6
  else daysInMonth y m

/-- `nth_weekday` from `src/app.py` lines 76-82: the n-th occurrence of
weekday `w`, as `first + timedelta(days = 7*(n-1))`; for the uses in this file
the result stays inside the month, so day-of-month addition is faithful. -/
def nth_weekday (y m w n : ℕ) : ℕ := first_weekday y m w + 7 * (n - 1)

/-- One generated macro event (`src/app.py` lines 109-139).  The source
formats the date as a `"%Y-%m-%d"` string; we keep the structured
`(year, month, day)` triple. -/
structure MacroEvent where
  name : String
  year : ℕ
  month : ℕ
  day : ℕ
  impact : ℤ
deriving DecidableEq

/-- Year of the i-th covered month (`src/app.py` lines 103-105:
`month = current_month + i; year = current_year + (month - 1) // 12`). -/
def targetYear (cy cm i : ℕ) : ℕ := cy + (cm + i - 1) / 12

/-- Month of the i-th covered month (`src/app.py` line 105:
`month = (month - 1) % 12 + 1`). -/
def targetMonth (cy cm i : ℕ) : ℕ := (cm + i - 1) % 12 + 1

/-- Events appended for loop index `i` of `generate_macro_events`
(`src/app.py` lines 101-139): Payroll (1st Friday, weekday 4), CPI (1st
Wednesday + 7 days, weekday 2), PCE (last Friday), and on even indices the
FOMC rate decision (3rd Wednesday). -/
def eventsForIndex (cy cm i : ℕ) : List MacroEvent :=
  let y := targetYear cy cm i
  let m := targetMonth cy cm i
  [⟨"Payroll", y, m, first_weekday y m 4, -2⟩,
   ⟨"CPI", y, m, first_weekday y m 2 + 7, -2⟩,
   ⟨"PCE", y, m, last_weekday y m 4, -2⟩] ++
  (if i % 2 = 0 then [⟨"Decisão de Juros (FOMC)", y, m, nth_weekday y m 2 3, -3⟩] else [])

/-- `generate_macro_events` from `src/app.py` lines 85-141, parameterized by
the process-clock month (`date.today()` supplies `cy = today.year`,
`cm = today.month` in the source). -/
def generate_macro_events (cy cm months_ahead : ℕ) : List MacroEvent :=
  (List.range months_ahead).flatMap (eventsForIndex cy cm)

/-- Whether the generated list contains an event of the given name in the
given month. -/
def hasEvent (evs : List MacroEvent) (nm : String) (y m : ℕ) : Bool :=
  evs.any (fun ev => ev.name == nm && ev.year == y && ev.month == m)

/-! Auxiliary facts about the weekday scans. -/

theorem daysInMonth_ge (y m : ℕ) : 28 ≤ daysInMonth y m := by
  unfold daysInMonth
  split_ifs <;> omega

theorem first_weekday_spec (y m w : ℕ) (hw : w < 7) :
    1 ≤ first_weekday y m w ∧ first_weekday y m w ≤ 7 ∧
      pyWeekday (toOrdinal y m (first_weekday y m w)) = w := by
  unfold first_weekday
  split_ifs with h1 h2 h3 h4 h5 h6 h7
  · exact ⟨by omega, by omega, h1⟩
  · exact ⟨by omega, by omega, h2⟩
  · exact ⟨by omega, by omega, h3⟩
  · exact ⟨by omega, by omega, h4⟩
  · exact ⟨by omega, by omega, h5⟩
  · exact ⟨by omega, by omega, h6⟩
  · exact ⟨by omega, by omega, h7⟩
  · exfalso
    simp only [pyWeekday, toOrdinal] at h1 h2 h3 h4 h5 h6 h7
    omega

theorem last_weekday_spec (y m w : ℕ) (hw : w < 7) :
    daysInMonth y m - 6 ≤ last_weekday y m w ∧ last_weekday y m w ≤ daysInMonth y m ∧
      pyWeekday (toOrdinal y m (last_weekday y m w)) = w := by
  have h28 := daysInMonth_ge y m
  unfold last_weekday
  split_ifs with h1 h2 h3 h4 h5 h6 h7
  · exact ⟨by omega, by omega, h1⟩
  · exact ⟨by omega, by omega, h2⟩
  · exact ⟨by omega, by omega, h3⟩
  · exact ⟨by omega, by omega, h4⟩
  · exact ⟨by omega, by omega, h5⟩
  · exact ⟨by omega, by omega, h6⟩
  · exact ⟨by omega, by omega, h7⟩
  · exfalso
    simp only [pyWeekday, toOrdinal] at h1 h2 h3 h4 h5 h6 h7
    omega

theorem weekday_add_seven (y m d : ℕ) :
    pyWeekday (toOrdinal y m (d + 7)) = pyWeekday (toOrdinal y m d) := by
  simp only [pyWeekday, toOrdinal]
  omega

theorem target_inj (cy cm i j : ℕ) (hcm : 1 ≤ cm)
    (hy : targetYear cy cm i = targetYear cy cm j)
    (hm : targetMonth cy cm i = targetMonth cy cm j) : i = j := by
  unfold targetYear at hy
  unfold targetMonth at hm
  omega

theorem payroll_day_props (y m : ℕ) :
    1 ≤ first_weekday y m 4 ∧ first_weekday y m 4 ≤ 7 ∧
      pyWeekday (toOrdinal y m (first_weekday y m 4)) = 4 :=
  first_weekday_spec y m 4 (by omega)

theorem cpi_day_props (y m : ℕ) :
    8 ≤ first_weekday y m 2 + 7 ∧ first_weekday y m 2 + 7 ≤ 14 ∧
      pyWeekday (toOrdinal y m (first_weekday y m 2 + 7)) = 2 := by
  obtain ⟨h1, h2, h3⟩ := first_weekday_spec y m 2 (by omega)
  exact ⟨by omega, by omega, by rw [weekday_add_seven]; exact h3⟩

theorem pce_day_props (y m : ℕ) :
    daysInMonth y m - 6 ≤ last_weekday y m 4 ∧ last_weekday y m 4 ≤ daysInMonth y m ∧
      pyWeekday (toOrdinal y m (last_weekday y m 4)) = 4 :=
  last_weekday_spec y m 4 (by omega)

theorem fomc_day_props (y m : ℕ) :
    15 ≤ nth_weekday y m 2 3 ∧ nth_weekday y m 2 3 ≤ 21 ∧
      pyWeekday (toOrdinal y m (nth_weekday y m 2 3)) = 2 := by
  obtain ⟨h1, h2, h3⟩ := first_weekday_spec y m 2 (by omega)
  unfold nth_weekday
  have e : first_weekday y m 2 + 7 * (3 - 1) = first_weekday y m 2 + 7 + 7 := by omega
  refine ⟨by omega, by omega, ?_⟩
  rw [e, weekday_add_seven, weekday_add_seven]
  exact h3

theorem mem_eventsForIndex_props (cy cm j : ℕ) (ev : MacroEvent)
    (h : ev ∈ eventsForIndex cy cm j) :
    ev.year = targetYear cy cm j ∧ ev.month = targetMonth cy cm j ∧
      (ev.name = "Payroll" ∧ ev.day = first_weekday ev.year ev.month 4 ∧ ev.impact = -2 ∨
       ev.name = "CPI" ∧ ev.day = first_weekday ev.year ev.month 2 + 7 ∧ ev.impact = -2 ∨
       ev.name = "PCE" ∧ ev.day = last_weekday ev.year ev.month 4 ∧ ev.impact = -2 ∨
       ev.name = "Decisão de Juros (FOMC)" ∧ j % 2 = 0 ∧
         ev.day = nth_weekday ev.year ev.month 2 3 ∧ ev.impact = -3) := by
  by_cases hj : j % 2 = 0
  · simp only [eventsForIndex, hj, if_true, if_false, List.append_nil,
      List.mem_append, List.mem_cons, List.mem_singleton, List.not_mem_nil, or_false] at h
    rcases h with (h | h | h) | h <;> subst h <;> simp_all
  · simp only [eventsForIndex, hj, if_true, if_false, List.append_nil,
      List.mem_append, List.mem_cons, List.mem_singleton, List.not_mem_nil, or_false] at h
    rcases h with h | h | h <;> subst h <;> simp_all

theorem hasEvent_of_mem (cy cm n i : ℕ) (hi : i < n) (ev : MacroEvent)
    (hmem : ev ∈ eventsForIndex cy cm i) :
    hasEvent (generate_macro_events cy cm n) ev.name ev.year ev.month = true := by
  unfold hasEvent generate_macro_events
  rw [List.any_eq_true]
  exact ⟨ev, List.mem_flatMap.mpr ⟨i, List.mem_range.mpr hi, hmem⟩, by simp⟩

theorem fomc_absent_of_odd (cy cm n i : ℕ) (hcm : 1 ≤ cm) (hodd : ¬ i % 2 = 0) :
    hasEvent (generate_macro_events cy cm n) "Decisão de Juros (FOMC)"
      (targetYear cy cm i) (targetMonth cy cm i) = false := by
  unfold hasEvent generate_macro_events
  rw [List.any_eq_false]
  intro ev hev
  rcases List.mem_flatMap.mp hev with ⟨j, _, hevj⟩
  obtain ⟨hy, hm, hcases⟩ := mem_eventsForIndex_props cy cm j ev hevj
  simp only [Bool.and_eq_true, beq_iff_eq, not_and]
  intro h1 hmm
  obtain ⟨hnm, hyy⟩ := h1
  rcases hcases with ⟨hn, _⟩ | ⟨hn, _⟩ | ⟨hn, _⟩ | ⟨_, hje, _⟩
  · rw [hn] at hnm; exact absurd hnm (by decide)
  · rw [hn] at hnm; exact absurd hnm (by decide)
  · rw [hn] at hnm; exact absurd hnm (by decide)
  · have hij : i = j := target_inj cy cm i j hcm (by rw [← hyy, hy]) (by rw [← hmm, hm])
    exact hodd (hij ▸ hje)

/-- C7: every event generated by `generate_macro_events` is one of Payroll /
CPI / PCE / FOMC; Payroll lands on the month's 1st Friday (weekday 4, day
1..7) with impact -2, CPI on the Wednesday exactly 7 days after the month's
1st Wednesday (weekday 2, day 8..14) with impact -2, PCE on the month's last
Friday (weekday 4, within the last 7 days of the month) with impact -2, and
the FOMC rate decision on the 3rd Wednesday (weekday 2, day 15..21) with
impact -3; moreover every covered month `i` carries Payroll, CPI and PCE, and
carries the FOMC decision exactly when the loop index `i` is even.  Weekdays
use the Python convention Monday = 0, so 4 is Friday and 2 is Wednesday. -/
theorem claim_C7_macro_calendar (cy cm n i : ℕ) (ev : MacroEvent)
    (hcm : 1 ≤ cm) (hev : ev ∈ generate_macro_events cy cm n) (hi : i < n) :
    (ev.name = "Payroll" ∨ ev.name = "CPI" ∨ ev.name = "PCE" ∨
      ev.name = "Decisão de Juros (FOMC)")
    ∧ (ev.name = "Payroll" → ev.impact = -2 ∧ 1 ≤ ev.day ∧ ev.day ≤ 7 ∧
        pyWeekday (toOrdinal ev.year ev.month ev.day) = 4)
    ∧ (ev.name = "CPI" → ev.impact = -2 ∧ ev.day = first_weekday ev.year ev.month 2 + 7 ∧
        8 ≤ ev.day ∧ ev.day ≤ 14 ∧ pyWeekday (toOrdinal ev.year ev.month ev.day) = 2)
    ∧ (ev.name = "PCE" → ev.impact = -2 ∧ daysInMonth ev.year ev.month - 6 ≤ ev.day ∧
        ev.day ≤ daysInMonth ev.year ev.month ∧
        pyWeekday (toOrdinal ev.year ev.month ev.day) = 4)
    ∧ (ev.name = "Decisão de Juros (FOMC)" → ev.impact = -3 ∧ 15 ≤ ev.day ∧ ev.day ≤ 21 ∧
        pyWeekday (toOrdinal ev.year ev.month ev.day) = 2)
    ∧ hasEvent (generate_macro_events cy cm n) "Payroll"
        (targetYear cy cm i) (targetMonth cy cm i) = true
    ∧ hasEvent (generate_macro_events cy cm n) "CPI"
        (targetYear cy cm i) (targetMonth cy cm i) = true
    ∧ hasEvent (generate_macro_events cy cm n) "PCE"
        (targetYear cy cm i) (targetMonth cy cm i) = true
    ∧ hasEvent (generate_macro_events cy cm n) "Decisão de Juros (FOMC)"
        (targetYear cy cm i) (targetMonth cy cm i) = decide (i % 2 = 0) := by
  rcases List.mem_flatMap.mp hev with ⟨j, _, hevj⟩
  obtain ⟨hy, hm, hcases⟩ := mem_eventsForIndex_props cy cm j ev hevj
  have hpay : hasEvent (generate_macro_events cy cm n) "Payroll"
      (targetYear cy cm i) (targetMonth cy cm i) = true :=
    hasEvent_of_mem cy cm n i hi
      ⟨"Payroll", targetYear cy cm i, targetMonth cy cm i,
        first_weekday (targetYear cy cm i) (targetMonth cy cm i) 4, -2⟩
      (by simp [eventsForIndex])
  have hcpi : hasEvent (generate_macro_events cy cm n) "CPI"
      (targetYear cy cm i) (targetMonth cy cm i) = true :=
    hasEvent_of_mem cy cm n i hi
      ⟨"CPI", targetYear cy cm i, targetMonth cy cm i,
        first_weekday (targetYear cy cm i) (targetMonth cy cm i) 2 + 7, -2⟩
      (by simp [eventsForIndex])
  have hpce : hasEvent (generate_macro_events cy cm n) "PCE"
      (targetYear cy cm i) (targetMonth cy cm i) = true :=
    hasEvent_of_mem cy cm n i hi
      ⟨"PCE", targetYear cy cm i, targetMonth cy cm i,
        last_weekday (targetYear cy cm i) (targetMonth cy cm i) 4, -2⟩
      (by simp [eventsForIndex])
  have hfomc : hasEvent (generate_macro_events cy cm n) "Decisão de Juros (FOMC)"
      (targetYear cy cm i) (targetMonth cy cm i) = decide (i % 2 = 0) := by
    by_cases hpar : i % 2 = 0
    · simp only [hpar, decide_eq_true_eq, decide_True]
      exact hasEvent_of_mem cy cm n i hi
        ⟨"Decisão de Juros (FOMC)", targetYear cy cm i, targetMonth cy cm i,
          nth_weekday (targetYear cy cm i) (targetMonth cy cm i) 2 3, -3⟩
        (by simp [eventsForIndex, hpar])
    · have h0 : decide (i % 2 = 0) = false := by simp [hpar]
      rw [h0]
      exact fomc_absent_of_odd cy cm n i hcm hpar
  refine ⟨?_, ?_, ?_, ?_, ?_, hpay, hcpi, hpce, hfomc⟩ <;>
    rcases hcases with ⟨hn, hd, himp⟩ | ⟨hn, hd, himp⟩ | ⟨hn, hd, himp⟩ | ⟨hn, hje, hd, himp⟩
  · exact Or.inl hn
  · exact Or.inr (Or.inl hn)
  · exact Or.inr (Or.inr (Or.inl hn))
  · exact Or.inr (Or.inr (Or.inr hn))
  · intro _
    obtain ⟨p1, p2, p3⟩ := payroll_day_props ev.year ev.month
    exact ⟨himp, by omega, by omega, by rw [hd]; exact p3⟩
  · intro hc; rw [hn] at hc; exact absurd hc (by decide)
  · intro hc; rw [hn] at hc; exact absurd hc (by decide)
  · intro hc; rw [hn] at hc; exact absurd hc (by decide)
  · intro hc; rw [hn] at hc; exact absurd hc (by decide)
  · intro _
    obtain ⟨p1, p2, p3⟩ := cpi_day_props ev.year ev.month
    exact ⟨himp, hd, by omega, by omega, by rw [hd]; exact p3⟩
  · intro hc; rw [hn] at hc; exact absurd hc (by decide)
  · intro hc; rw [hn] at hc; exact absurd hc (by decide)
  · intro hc; rw [hn] at hc; exact absurd hc (by decide)
  · intro hc; rw [hn] at hc; exact absurd hc (by decide)
  · intro _
    obtain ⟨p1, p2, p3⟩ := pce_day_props ev.year ev.month
    exact ⟨himp, by omega, by omega, by rw [hd]; exact p3⟩
  · intro hc; rw [hn] at hc; exact absurd hc (by decide)
  · intro hc; rw [hn] at hc; exact absurd hc (by decide)
  · intro hc; rw [hn] at hc; exact absurd hc (by decide)
  · intro hc; rw [hn] at hc; exact absurd hc (by decide)
  · intro _
    obtain ⟨p1, p2, p3⟩ := fomc_day_props ev.year ev.month
    exact ⟨himp, by omega, by omega, by rw [hd]; exact p3⟩

/-- Witness for C7 at the concrete clock month October 2025 with the source's
`months_ahead = 6` and loop index 0: the generated list contains the Payroll
event of 2025-10-03, which indeed falls on a Friday (weekday 4), and the CPI
and FOMC events of October 2025 are present. -/
theorem claim_C7_witness :
    pyWeekday (toOrdinal 2025 10 3) = 4 ∧
      hasEvent (generate_macro_events 2025 10 6) "CPI" 2025 10 = true ∧
      hasEvent (generate_macro_events 2025 10 6) "Decisão de Juros (FOMC)" 2025 10 = true := by
  have h := claim_C7_macro_calendar 2025 10 6 0 ⟨"Payroll", 2025, 10, 3, -2⟩
    (by decide) (by decide) (by decide)
  refine ⟨(h.2.1 rfl).2.2.2, ?_, ?_⟩
  · have := h.2.2.2.2.2.2.1
    simpa [targetYear, targetMonth] using this
  · have := h.2.2.2.2.2.2.2.2
    simpa [targetYear, targetMonth] using this

/-! ### Strategy constants (`src/app.py` lines 19-29) -/

def MA_SHORT : ℕ := 20
def MA_MEDIUM : ℕ := 50
def MA_LONG : ℕ := 200
def DONCHIAN_LEN : ℕ := 20
def RSI_LOW : ℚ := 40
def RSI_HIGH : ℚ := 60
def PULLBACK_TOL : ℚ := 2 / 100
def SPREAD_CALL_PCT : ℚ := 4 / 100
def SPREAD_PUT_PCT : ℚ := 4 / 100

/-! ### Data model -/

/-- One daily OHLC bar of a PriceSeries; only High/Low/Close are read by the
analysis code. -/
structure PriceBar where
  high : ℚ
  low : ℚ
  close : ℚ
deriving DecidableEq

/-- The local variable `direction` of `analyze_ticker` (`src/app.py` lines
281, 292, 303, 314, 325), which the source keeps as one of the strings
"none" / "bull" / "bear". -/
inductive TrendDirection where
  | bull
  | bear
  | none
deriving DecidableEq

/-- The scalar indicator values of the most recent bar that `analyze_ticker`
reads (`src/app.py` lines 267-273). -/
structure Snapshot where
  price : ℚ
  ma20 : ℚ
  ma50 : ℚ
  ma200 : ℚ
  rsi : ℚ
  atr : ℚ
  prev_high_20 : ℚ
  prev_low_20 : ℚ
deriving DecidableEq

/-! Named branch conditions of `analyze_ticker` (`src/app.py` lines 285,
286, 294, 307, 308, 316), exactly as written in the source. -/

def bullTrendCond (s : Snapshot) : Prop := s.price > s.ma200 ∧ s.ma50 > s.ma200

def bearTrendCond (s : Snapshot) : Prop := s.price < s.ma200 ∧ s.ma50 < s.ma200

def bullBreakoutCond (s : Snapshot) : Prop := s.price > s.prev_high_20

def bullPullbackCond (s : Snapshot) : Prop :=
  s.price ≤ s.ma20 * (1 + PULLBACK_TOL) ∧ RSI_LOW < s.rsi ∧ s.rsi < RSI_HIGH

def bearBreakoutCond (s : Snapshot) : Prop := s.price < s.prev_low_20

def bearPullbackCond (s : Snapshot) : Prop :=
  s.price ≥ s.ma20 * (1 - PULLBACK_TOL) ∧ RSI_LOW < s.rsi ∧ s.rsi < RSI_HIGH

instance (s : Snapshot) : Decidable (bullTrendCond s) := by
  unfold bullTrendCond; infer_instance

instance (s : Snapshot) : Decidable (bearTrendCond s) := by
  unfold bearTrendCond; infer_instance

instance (s : Snapshot) : Decidable (bullBreakoutCond s) := by
  unfold bullBreakoutCond; infer_instance

instance (s : Snapshot) : Decidable (bullPullbackCond s) := by
  unfold bullPullbackCond; infer_instance

instance (s : Snapshot) : Decidable (bearBreakoutCond s) := by
  unfold bearBreakoutCond; infer_instance

instance (s : Snapshot) : Decidable (bearPullbackCond s) := by
  unfold bearPullbackCond; infer_instance

/-! ### Python number formatting -/

/-- Floor of a rational number. -/
def qfloor (q : ℚ) : ℤ := Int.fdiv q.num q.den

/-- Python `f"{x:.0f}"` rounding: nearest integer, ties to even (the exact
binary-double detour of CPython formatting is abstracted to exact rational
rounding).  The fractional part `q - floor q` is compared with 1/2 through
the integer test `2 * (num - floor * den) <> den`. -/
def rnd0 (q : ℚ) : ℤ :=
  if 2 * (q.num - qfloor q * (q.den : ℤ)) < (q.den : ℤ) then qfloor q
  else if 2 * (q.num - qfloor q * (q.den : ℤ)) > (q.den : ℤ) then qfloor q + 1
  else if qfloor q % 2 = 0 then qfloor q else qfloor q + 1

/-- The `f"${curr_price:.0f} (ATM)"` strike text (`src/app.py` lines 290, 312). -/
def atmStr (p : ℚ) : String := "$" ++ toString (rnd0 p) ++ " (ATM)"

/-- The `f"C:${strike_long:.0f} / V:${strike_short:.0f}"` strike text
(`src/app.py` lines 300, 322). -/
def spreadStr (pl ps : ℚ) : String :=
  "C:$" ++ toString (rnd0 pl) ++ " / V:$" ++ toString (rnd0 ps)

/-! ### Setup classifier (`src/app.py` lines 275-326) -/

/-- The tuple of local variables that the branch block of `analyze_ticker`
assigns: `sugestao, motivo, vencimento, strike_alvo, cor_fundo, cor_texto,
direction, score`. -/
structure SetupOut where
  sugestao : String
  motivo : String
  vencimento : String
  strike_alvo : String
  cor_fundo : String
  cor_texto : String
  direction : TrendDirection
  score : ℤ
deriving DecidableEq

/-- The default assignments of `src/app.py` lines 275-282 ("Aguardar",
direction "none", score 0), kept when no branch fires. -/
def setupWait : SetupOut :=
  ⟨"Aguardar", "-", "-", "-", "#ffffff", "#000000", TrendDirection.none, 0⟩

/-- The branch block of `analyze_ticker` (`src/app.py` lines 284-326) as a
pure function of the indicator snapshot. -/
def classify_setup (s : Snapshot) : SetupOut :=
  if bullTrendCond s then
    if bullBreakoutCond s then
      ⟨"COMPRA CALL (Seco)", "Rompimento Explosivo", "Curto (15-30d)",
        atmStr s.price, "#b6d7a8", "#000000", TrendDirection.bull, 2⟩
    else if bullPullbackCond s then
      ⟨"TRAVA DE ALTA (Call Spread)", "Pullback (Correção)", "Médio (30-45d)",
        spreadStr s.price (s.price * (1 + SPREAD_CALL_PCT)), "#38761d", "#ffffff",
        TrendDirection.bull, 1⟩
    else setupWait
  else if bearTrendCond s then
    if bearBreakoutCond s then
      ⟨"COMPRA PUT (Seco)", "Perda de Suporte", "Curto (15-30d)",
        atmStr s.price, "#ea9999", "#000000", TrendDirection.bear, -2⟩
    else if bearPullbackCond s then
      ⟨"TRAVA DE BAIXA (Put Spread)", "Repique p/ Cair", "Médio (30-45d)",
        spreadStr s.price (s.price * (1 - SPREAD_PUT_PCT)), "#990000", "#ffffff",
        TrendDirection.bear, -1⟩
    else setupWait
  else setupWait

/-! ### Risk veto filter (`src/app.py` lines 216-246) -/

/-- `anti_po_filter` from `src/app.py` lines 216-246.  The source reads
`df["Close"].iloc[-1]`, `rsi_series.iloc[-1]` and `atr_series.iloc[-1]`
inside a `try`, and any exception there (the only fallible step for numeric
inputs) yields `(True, "Erro Filtro")`; the three extractions are modelled as
`Option ℚ` arguments, `none` meaning the extraction faults.  The source's
unused `ma20, ma50, ma200` parameters are dropped.  The source variable `ok`
is `False` exactly when `reasons` is non-empty, so the final
`return ok, "; ".join(reasons)` is rendered with `false`. -/
def anti_po_filter (direction : TrendDirection)
    (priceOpt rsiOpt atrOpt : Option ℚ) : Bool × String :=
  match priceOpt, rsiOpt, atrOpt with
  | some price, some curr_rsi, some curr_atr =>
    let curr_atr_pct := if price > 0 then curr_atr / price else 0
    let reasons :=
      (if curr_atr_pct > 6 / 100 then ["Volatilidade extrema (ATR% > 6%)"] else []) ++
      (if direction = TrendDirection.bull ∧ curr_rsi > 75
        then ["RSI Sobrecomprado (> 75)"] else []) ++
      (if direction = TrendDirection.bear ∧ curr_rsi < 25
        then ["RSI Sobrevendido (< 25)"] else [])
    if reasons = [] then (true, "-") else (false, String.intercalate "; " reasons)
  | _, _, _ => (true, "Erro Filtro")

/-! ### Indicator engine (`src/app.py` lines 254-273)

`analyze_ticker` computes full indicator series with `pandas_ta` and then
reads only the last value (or, for the Donchian channels, the second-to-last
value).  The `pandas_ta` library is not part of this repository, so the
indicator formulas are modelled from the spec; only the values actually read
are computed. -/

/-- The trailing window of the last `n` elements. -/
def lastN (n : ℕ) (xs : List ℚ) : List ℚ := xs.drop (xs.length - n)

/-- Modelled from the spec: `ta.sma(close, length=n)` at the most recent bar —
"simple (unweighted) arithmetic means over trailing windows". -/
def sma_last (n : ℕ) (xs : List ℚ) : ℚ := (lastN n xs).sum / (n : ℚ)

/-- Consecutive close-to-close differences. -/
def diffSeries (xs : List ℚ) : List ℚ := (xs.zip (xs.drop 1)).map (fun p => p.2 - p.1)

/-- Modelled from the spec: `ta.rsi(close, length=n)` at the most recent bar —
"standard relative-strength-index formula over a 14-period trailing window of
close-to-close differences (average gain / average loss ratio, scaled to
0-100)"; an all-gain window conventionally saturates at 100. -/
def rsi_last (n : ℕ) (xs : List ℚ) : ℚ :=
  let ds := lastN n (diffSeries xs)
  let avg_gain := (ds.map (fun d => max d 0)).sum / (n : ℚ)
  let avg_loss := (ds.map (fun d => max (0 - d) 0)).sum / (n : ℚ)
  if avg_loss = 0 then 100 else 100 - 100 / (1 + avg_gain / avg_loss)

/-- True range of a bar given the previous close. -/
def true_range (prevClose : ℚ) (b : PriceBar) : ℚ :=
  max (b.high - b.low) (max |b.high - prevClose| |b.low - prevClose|)

/-- Modelled from the spec: `ta.atr(high, low, close, length=n)` at the most
recent bar — "14-period trailing average of the true range". -/
def atr_last (n : ℕ) (df : List PriceBar) : ℚ :=
  let trs := (df.zip (df.drop 1)).map (fun p => true_range p.1.close p.2)
  (lastN n trs).sum / (n : ℚ)

/-- `donchian_high.iloc[-2]` (`src/app.py` lines 264, 272): the rolling
`DONCHIAN_LEN`-bar maximum of High evaluated at the second-to-last bar,
i.e. over the window that excludes the most recent bar. -/
def donch_high_prev (len : ℕ) (df : List PriceBar) : ℚ :=
  ((lastN len (df.dropLast.map PriceBar.high)).max?).getD 0

/-- `donchian_low.iloc[-2]` (`src/app.py` lines 265, 273). -/
def donch_low_prev (len : ℕ) (df : List PriceBar) : ℚ :=
  ((lastN len (df.dropLast.map PriceBar.low)).min?).getD 0

/-- The indicator snapshot read by `analyze_ticker` (`src/app.py` lines
254-273). -/
def snapshotOf (df : List PriceBar) : Snapshot :=
  let closes := df.map PriceBar.close
  { price := (closes.getLast?).getD 0
    ma20 := sma_last MA_SHORT closes
    ma50 := sma_last MA_MEDIUM closes
    ma200 := sma_last MA_LONG closes
    rsi := rsi_last 14 closes
    atr := atr_last 14 df
    prev_high_20 := donch_high_prev DONCHIAN_LEN df
    prev_low_20 := donch_low_prev DONCHIAN_LEN df }

/-- The per-instrument result dictionary of `analyze_ticker` (`src/app.py`
lines 335-346).  `preco` keeps the raw price (the source stores the display
string `f"${curr_price:.2f}"`); the filter reason `motivo_filtro` is computed
by the source but not stored in the dictionary, and is likewise absent
here. -/
structure ScanRecord where
  ticker : String
  preco : ℚ
  estrategia : String
  strikes_ref : String
  vencimento : String
  motivo : String
  filtro_ok : Bool
  score : ℤ
  cor_fundo : String
  cor_texto : String
deriving DecidableEq

/-- `analyze_ticker` from `src/app.py` lines 249-348, with the risk filter
passed as a parameter so that its (non-)invocation is provable; the source
fixes `fil := anti_po_filter`.  A series shorter than `MA_LONG + 5` bars
returns `none` (line 251; `df is None or df.empty` is subsumed by the length
test in the typed embedding).  The filter is invoked only when the classifier
set a direction (lines 329-333). -/
def analyze_ticker_with
    (fil : TrendDirection → Option ℚ → Option ℚ → Option ℚ → Bool × String)
    (ticker : String) (df : List PriceBar) : Option ScanRecord :=
  if df.length < MA_LONG + 5 then none
  else
    let closes := df.map PriceBar.close
    let s := snapshotOf df
    let out := classify_setup s
    let fr := if out.direction = TrendDirection.none then (true, "-")
              else fil out.direction closes.getLast?
                     (some (rsi_last 14 closes)) (some (atr_last 14 df))
    some { ticker := ticker, preco := s.price, estrategia := out.sugestao,
           strikes_ref := out.strike_alvo, vencimento := out.vencimento,
           motivo := out.motivo, filtro_ok := fr.1, score := out.score,
           cor_fundo := out.cor_fundo, cor_texto := out.cor_texto }

/-- `analyze_ticker` as the source runs it. -/
def analyze_ticker : String → List PriceBar → Option ScanRecord :=
  analyze_ticker_with anti_po_filter

/-! ### Sentiment aggregator (`src/app.py` lines 408-463) -/

/-- `df_valid = df_results[df_results["Filtro_OK"] == True]` (line 410). -/
def df_valid (results : List ScanRecord) : List ScanRecord :=
  results.filter (fun r => r.filtro_ok)

/-- The Score column of a record list, as rationals (pandas holds the integer
scores in a numeric column). -/
def scoresOf (valid : List ScanRecord) : List ℚ := valid.map (fun r => (r.score : ℚ))

/-- `bull_count = (df_valid["Score"] > 0).sum()` (lines 418-421). -/
def bull_count (scores : List ℚ) : ℕ := (scores.filter (fun x => decide (0 < x))).length

/-- `bear_count = (df_valid["Score"] < 0).sum()` (lines 419-422). -/
def bear_count (scores : List ℚ) : ℕ := (scores.filter (fun x => decide (x < 0))).length

/-- `flat_count = total_sinais - bull_count - bear_count` (line 423). -/
def flat_count (scores : List ℚ) : ℕ := scores.length - bull_count scores - bear_count scores

/-- `avg_strength_raw = df_valid["Score"].mean()` (line 429). -/
def avg_strength_raw (scores : List ℚ) : ℚ := scores.sum / (scores.length : ℚ)

/-- `avg_strength_norm = avg_strength_raw / 2.0` (line 430). -/
def avg_strength_norm (scores : List ℚ) : ℚ := avg_strength_raw scores / 2

/-- `dir_balance = (bull_count - bear_count) / total_sinais if total_sinais > 0 else 0`
(line 433). -/
def dir_balance (scores : List ℚ) : ℚ :=
  if 0 < scores.length
    then ((bull_count scores : ℚ) - (bear_count scores : ℚ)) / (scores.length : ℚ)
    else 0

/-- `m = 0.6 * dir_balance + 0.4 * avg_strength_norm` (line 437). -/
def m_composite (scores : List ℚ) : ℚ :=
  6 / 10 * dir_balance scores + 4 / 10 * avg_strength_norm scores

/-- `tm_score = max(0, min(100, (m + 1) * 50))` (lines 440-441). -/
def tm_score (scores : List ℚ) : ℚ :=
  max 0 (min 100 ((m_composite scores + 1) * 50))

/-- The label chain of `src/app.py` lines 444-463. -/
def tm_label (scores : List ℚ) : String :=
  if tm_score scores ≥ 80 then "EUFORIA (ALTA FORTE)"
  else if tm_score scores ≥ 60 then "VIÉS DE ALTA"
  else if tm_score scores ≤ 20 then "PÂNICO / BAIXA FORTE"
  else if tm_score scores ≤ 40 then "VIÉS DE BAIXA"
  else "NEUTRO / EQUILIBRADO"

/-! ### Claims about the setup classifier -/

/-- C1: for a snapshot classified as bull trend, sub-conditions are evaluated
in priority order with first match winning: breakout
(`price > channel_high_prev`) emits the "COMPRA CALL (Seco)" / long-call
record with short 15-30d expiry, ATM strike hint of the price rounded to a
whole currency unit, and directional score +2; otherwise pullback
(`price ≤ ma20 * (1 + 0.02)` and `40 < rsi < 60`) emits the
"TRAVA DE ALTA (Call Spread)" / bull-call-spread record with medium 30-45d
expiry, strike hints long leg = price and short leg = price * (1 + 0.04), and
directional score +1; otherwise the record stays at the no-signal default
"Aguardar" (wait) with directional score 0.  The spec's English labels
"long call (outright)" and "bull call spread" name the source's Portuguese
strings. -/
theorem claim_C1_bull_priority (s : Snapshot) (htrend : bullTrendCond s) :
    (bullBreakoutCond s →
      classify_setup s =
        ⟨"COMPRA CALL (Seco)", "Rompimento Explosivo", "Curto (15-30d)",
          "$" ++ toString (rnd0 s.price) ++ " (ATM)", "#b6d7a8", "#000000",
          TrendDirection.bull, 2⟩)
    ∧ (¬ bullBreakoutCond s → bullPullbackCond s →
      classify_setup s =
        ⟨"TRAVA DE ALTA (Call Spread)", "Pullback (Correção)", "Médio (30-45d)",
          "C:$" ++ toString (rnd0 s.price) ++ " / V:$" ++
            toString (rnd0 (s.price * (1 + SPREAD_CALL_PCT))),
          "#38761d", "#ffffff", TrendDirection.bull, 1⟩)
    ∧ (¬ bullBreakoutCond s → ¬ bullPullbackCond s →
      classify_setup s = setupWait ∧ (classify_setup s).sugestao = "Aguardar" ∧
        (classify_setup s).score = 0) := by
  refine ⟨?_, ?_, ?_⟩
  · intro hb
    unfold classify_setup
    rw [if_pos htrend, if_pos hb]
    rfl
  · intro hnb hp
    unfold classify_setup
    rw [if_pos htrend, if_neg hnb, if_pos hp]
    rfl
  · intro hnb hnp
    unfold classify_setup
    rw [if_pos htrend, if_neg hnb, if_neg hnp]
    exact ⟨rfl, rfl, rfl⟩

/-- Witness for C1 at the spec's concrete scenario: price 110, ma20 108,
ma50 105, ma200 100, rsi 50, channel_high_prev 109 (atr 2, channel_low_prev
100): the breakout branch fires with strike hint "$110 (ATM)" and score +2. -/
theorem claim_C1_witness :
    classify_setup ⟨110, 108, 105, 100, 50, 2, 109, 100⟩ =
      ⟨"COMPRA CALL (Seco)", "Rompimento Explosivo", "Curto (15-30d)",
        "$110 (ATM)", "#b6d7a8", "#000000", TrendDirection.bull, 2⟩ := by
  have h := (claim_C1_bull_priority ⟨110, 108, 105, 100, 50, 2, 109, 100⟩
    (by decide)).1 (by decide)
  rw [h]
  decide

unseal Rat.add Rat.mul Rat.sub Rat.inv in
/-- Counterexample to C2 as stated: the snapshot price 110, ma20 100, ma50
105, ma200 100, rsi 70, atr 1, channel_high_prev 115, channel_low_prev 0
satisfies the claimed bull-trend condition `price > ma200 ∧ ma50 > ma200`,
yet the classifier's emitted direction is "none" (not "bull"): neither the
breakout nor the pullback sub-condition holds, and the source only assigns
`direction = "bull"` inside those sub-branches (lines 292, 303), so the
claimed "bull if and only if" fails in the only-if-to-if direction. -/
theorem claim_C2_counterexample :
    bullTrendCond ⟨110, 100, 105, 100, 70, 1, 115, 0⟩ ∧
      (classify_setup ⟨110, 100, 105, 100, 70, 1, 115, 0⟩).direction ≠ TrendDirection.bull ∧
      (classify_setup ⟨110, 100, 105, 100, 70, 1, 115, 0⟩).direction = TrendDirection.none := by
  refine ⟨by decide, ?_, ?_⟩ <;> decide

/-- C2 amended: the emitted direction is "bull" iff the bull-trend condition
`price > ma200 ∧ ma50 > ma200` holds AND one of the bull sub-conditions
(breakout or pullback) fires, and symmetrically for "bear"; when neither
trend condition holds the record is the untouched no-signal default
("Aguardar", direction "none", score 0, no sub-condition evaluated), and
every record whose direction is "none" — including bull- or bear-trend
snapshots where no sub-condition fired — carries the no-signal label and
directional score 0. -/
theorem claim_C2_direction_characterization (s : Snapshot) :
    ((classify_setup s).direction = TrendDirection.bull ↔
      bullTrendCond s ∧ (bullBreakoutCond s ∨ bullPullbackCond s))
    ∧ ((classify_setup s).direction = TrendDirection.bear ↔
      bearTrendCond s ∧ (bearBreakoutCond s ∨ bearPullbackCond s))
    ∧ (¬ bullTrendCond s → ¬ bearTrendCond s → classify_setup s = setupWait)
    ∧ ((classify_setup s).direction = TrendDirection.none →
      (classify_setup s).sugestao = "Aguardar" ∧ (classify_setup s).score = 0) := by
  have hex : ¬ (bullTrendCond s ∧ bearTrendCond s) := by
    intro hc
    exact absurd hc.1.1 (not_lt.mpr hc.2.1.le)
  unfold classify_setup setupWait
  split_ifs with h1 h2 h3 h4 h5 h6 <;> simp_all

unseal Rat.add Rat.mul Rat.sub Rat.inv in
/-- Counterexample to C6 as stated: the snapshot price 100, ma20 100, ma50
60, ma200 50, rsi 50, atr 1, channel_high_prev 90, channel_low_prev 0 has a
bull trend (`100 > 50` and `60 > 50`, so `trend_direction ≠ none`) and
satisfies the breakout predicate (`100 > 90`) and the pullback predicate
(`100 ≤ 100 * 1.02` and `40 < 50 < 60`) simultaneously: the two raw
predicates are not mutually exclusive. -/
theorem claim_C6_counterexample :
    bullTrendCond ⟨100, 100, 60, 50, 50, 1, 90, 0⟩ ∧
      bullBreakoutCond ⟨100, 100, 60, 50, 50, 1, 90, 0⟩ ∧
      bullPullbackCond ⟨100, 100, 60, 50, 50, 1, 90, 0⟩ := by
  decide

/-- C6 amended: breakout and pullback are mutually exclusive only at the
level of the emitted record, because the sub-conditions are evaluated in
priority order with first match winning: within a trend the pullback record
is emitted iff the breakout predicate fails and the pullback predicate holds,
the breakout record is emitted iff the breakout predicate holds, and no
snapshot yields both records at once; the raw predicates themselves can hold
simultaneously (see the counterexample).  Records are discriminated by their
unique `motivo` rationale tags. -/
theorem claim_C6_first_match_exclusive (s : Snapshot) :
    ((classify_setup s).motivo = "Rompimento Explosivo" ↔
      bullTrendCond s ∧ bullBreakoutCond s)
    ∧ ((classify_setup s).motivo = "Pullback (Correção)" ↔
      bullTrendCond s ∧ ¬ bullBreakoutCond s ∧ bullPullbackCond s)
    ∧ ((classify_setup s).motivo = "Perda de Suporte" ↔
      bearTrendCond s ∧ bearBreakoutCond s)
    ∧ ((classify_setup s).motivo = "Repique p/ Cair" ↔
      bearTrendCond s ∧ ¬ bearBreakoutCond s ∧ bearPullbackCond s)
    ∧ ¬ ((classify_setup s).motivo = "Rompimento Explosivo" ∧
        (classify_setup s).motivo = "Pullback (Correção)") := by
  have hex : ¬ (bullTrendCond s ∧ bearTrendCond s) := by
    intro hc
    exact absurd hc.1.1 (not_lt.mpr hc.2.1.le)
  unfold classify_setup setupWait
  split_ifs with h1 h2 h3 h4 h5 h6 <;> simp_all

/-! ### Claims about the risk veto filter -/

/-- C4: for a bull or bear candidate with well-defined inputs and positive
price (no numeric fault), the filter disapproves iff at least one of the
three independent checks fails — `atr/price > 0.06` (volatility),
bull and `rsi > 75` (overbought), bear and `rsi < 25` (oversold) — the
reason concatenates the text of every failing check (joined by "; "), and
when no check fails the result is `(approved = true, reason = "-")`. -/
theorem claim_C4_veto_checks (d : TrendDirection) (p r a : ℚ)
    (hd : d = TrendDirection.bull ∨ d = TrendDirection.bear) (hp : 0 < p) :
    ((anti_po_filter d (some p) (some r) (some a)).1 = false ↔
      (a / p > 6 / 100 ∨ (d = TrendDirection.bull ∧ r > 75) ∨
        (d = TrendDirection.bear ∧ r < 25)))
    ∧ (¬ (a / p > 6 / 100) → ¬ (d = TrendDirection.bull ∧ r > 75) →
        ¬ (d = TrendDirection.bear ∧ r < 25) →
        anti_po_filter d (some p) (some r) (some a) = (true, "-"))
    ∧ ((a / p > 6 / 100 ∨ (d = TrendDirection.bull ∧ r > 75) ∨
        (d = TrendDirection.bear ∧ r < 25)) →
        (anti_po_filter d (some p) (some r) (some a)).2 =
          String.intercalate "; "
            ((if a / p > 6 / 100 then ["Volatilidade extrema (ATR% > 6%)"] else []) ++
             (if d = TrendDirection.bull ∧ r > 75 then ["RSI Sobrecomprado (> 75)"] else []) ++
             (if d = TrendDirection.bear ∧ r < 25 then ["RSI Sobrevendido (< 25)"] else []))) := by
  have hgd : (if p > 0 then a / p else 0) = a / p := if_pos hp
  unfold anti_po_filter
  simp only [hgd]
  rcases hd with hd | hd <;> subst hd <;>
    split_ifs with h1 h2 h3 <;> simp_all

unseal Rat.add Rat.mul Rat.sub Rat.inv in
/-- Witness for C4: a bull candidate with price 100, rsi 80 and atr 10 fails
both the volatility check (10/100 > 0.06) and the overbought check (80 > 75),
and the reason concatenates both texts. -/
theorem claim_C4_witness :
    anti_po_filter TrendDirection.bull (some 100) (some 80) (some 10) =
      (false, "Volatilidade extrema (ATR% > 6%); RSI Sobrecomprado (> 75)") := by
  have h := claim_C4_veto_checks TrendDirection.bull 100 80 10 (Or.inl rfl) (by decide)
  have hfst := h.1.mpr (Or.inl (by decide))
  have hsnd := h.2.2 (Or.inl (by decide))
  refine Prod.ext hfst ?_
  rw [hsnd]
  decide

/-- C5: when the evaluation of the filter inputs faults (the source wraps the
`iloc[-1]` extractions in `try`/`except` and any exception lands in the
handler at lines 245-246), the filter fails open: it returns approved = true
with the filter-error reason "Erro Filtro" (the spec's "filter error (not
applied)"), never vetoing a signal because of an internal fault.  Note that
`price ≤ 0` itself does not fault in this code: line 224 guards the division
and substitutes an ATR ratio of 0. -/
theorem claim_C5_fail_open (d : TrendDirection) (p r a : Option ℚ)
    (h : p = none ∨ r = none ∨ a = none) :
    anti_po_filter d p r a = (true, "Erro Filtro") := by
  rcases p with _ | p <;> rcases r with _ | r <;> rcases a with _ | a <;>
    simp_all [anti_po_filter]

/-- Witness for C5: a faulting price extraction on a bear candidate fails
open. -/
theorem claim_C5_witness :
    anti_po_filter TrendDirection.bear none (some 50) (some 1) = (true, "Erro Filtro") :=
  claim_C5_fail_open TrendDirection.bear none (some 50) (some 1) (Or.inl rfl)

/-! ### Claims about series-level classification -/

/-- C8: a PriceSeries with fewer than `MA_LONG + 5 = 205` bars produces no
record: `analyze_ticker` returns the absence value `none` (`src/app.py`
line 251-252), a silent exclusion encoded in the `Option` result type rather
than a raised error. -/
theorem claim_C8_insufficient_history (ticker : String) (df : List PriceBar)
    (h : df.length < MA_LONG + 5) :
    analyze_ticker ticker df = none ∧ MA_LONG + 5 = 205 := by
  constructor
  · unfold analyze_ticker analyze_ticker_with
    rw [if_pos h]
  · rfl

/-- Witness for C8: the empty series is excluded. -/
theorem claim_C8_witness :
    analyze_ticker "SPY" [] = none ∧ MA_LONG + 5 = 205 :=
  claim_C8_insufficient_history "SPY" [] (by decide)

/-- A 205-bar series whose most recent close is the degenerate price 0
(204 bars at 100 followed by one bar at 0). -/
def degenSeries : List PriceBar :=
  List.replicate 204 ⟨100, 100, 100⟩ ++ [⟨0, 0, 0⟩]

set_option maxRecDepth 4000 in
/-- Counterexample to C9 as stated: `degenSeries` has sufficient length
(205 = MA_LONG + 5 bars) and a numerically degenerate most recent close
(price 0), yet the Setup Classifier does NOT treat it as undefined: 
`analyze_ticker` returns a record rather than the absence value.  Nothing in
`analyze_ticker` inspects the price for validity: the only division by price
sits inside `anti_po_filter` behind the `price > 0` guard of line 224, so no
exception occurs and no skip happens. -/
theorem claim_C9_counterexample :
    degenSeries.length = MA_LONG + 5 ∧
      ((degenSeries.map PriceBar.close).getLast?) = some 0 ∧
      (analyze_ticker "TEST" degenSeries).isSome = true := by
  refine ⟨by decide, by decide, ?_⟩
  decide

/-- C9 amended: a numerically degenerate most recent close (zero or negative
price) does not cause the instrument to be skipped: for every series of
sufficient length, `analyze_ticker` returns a record; absence arises only
from insufficient history (or from the structural faults modelled by the
source's `try`/`except`, which typed bars cannot produce). -/
theorem claim_C9_degenerate_not_skipped (ticker : String) (df : List PriceBar)
    (h : MA_LONG + 5 ≤ df.length) :
    (analyze_ticker ticker df).isSome = true := by
  unfold analyze_ticker analyze_ticker_with
  rw [if_neg (by omega)]
  rfl

set_option maxRecDepth 4000 in
/-- Witness for C9 (amended form): a 205-bar series priced at the degenerate
constant -5 still yields a record. -/
theorem claim_C9_witness :
    (analyze_ticker "NEG" (List.replicate 205 ⟨-5, -5, -5⟩)).isSome = true :=
  claim_C9_degenerate_not_skipped "NEG" (List.replicate 205 ⟨-5, -5, -5⟩) (by decide)

/-! ### Claims about the sentiment aggregator -/

/-- C3: for every non-empty list of approved directional scores, the
thermometer computes `m = 0.6 * dir_balance + 0.4 * avg_strength_norm` with
`dir_balance = (bull_count - bear_count) / total` and
`avg_strength_norm = mean(score) / 2`, clamps `(m + 1) * 50` into [0, 100],
and labels the result by thresholds inclusive on the extreme side
(>= 80 euphoria, else >= 60 bullish bias, else <= 20 panic, else <= 40
bearish bias, else neutral); and at the spec's concrete scenario — 10
approved records, bull_count 7, bear_count 3, mean score 0.75 — dir_balance
is 0.4, avg_strength_norm 0.375, m 0.39, score 69.5 and the label is the
bullish-bias "VIÉS DE ALTA".  The spec's English labels are the translations
of the source's Portuguese label strings. -/
theorem claim_C3_sentiment (scores : List ℚ) (hne : scores ≠ []) :
    tm_score scores =
      max 0 (min 100 ((6 / 10 * (((bull_count scores : ℚ) - (bear_count scores : ℚ)) /
        (scores.length : ℚ)) + 4 / 10 * (scores.sum / (scores.length : ℚ) / 2) + 1) * 50))
    ∧ (tm_label scores = "EUFORIA (ALTA FORTE)" ↔ 80 ≤ tm_score scores)
    ∧ (tm_label scores = "VIÉS DE ALTA" ↔ 60 ≤ tm_score scores ∧ tm_score scores < 80)
    ∧ (tm_label scores = "PÂNICO / BAIXA FORTE" ↔ tm_score scores ≤ 20)
    ∧ (tm_label scores = "VIÉS DE BAIXA" ↔ 20 < tm_score scores ∧ tm_score scores ≤ 40)
    ∧ (tm_label scores = "NEUTRO / EQUILIBRADO" ↔ 40 < tm_score scores ∧ tm_score scores < 60)
    ∧ (scores.length = 10 → bull_count scores = 7 → bear_count scores = 3 →
        avg_strength_raw scores = 3 / 4 →
        dir_balance scores = 2 / 5 ∧ avg_strength_norm scores = 3 / 8 ∧
          m_composite scores = 39 / 100 ∧ tm_score scores = 139 / 2 ∧
          tm_label scores = "VIÉS DE ALTA") := by
  have hlen : 0 < scores.length := List.length_pos.mpr hne
  refine ⟨?_, ?_, ?_, ?_⟩
  · unfold tm_score m_composite dir_balance avg_strength_norm avg_strength_raw
    rw [if_pos hlen]
  · unfold tm_label
    split_ifs with g1 <;> simp_all <;>
      first
      | linarith
      | (intro hx; linarith)
      | (constructor <;> intro hx <;> linarith)
      | (constructor <;> linarith)
  · unfold tm_label
    split_ifs with g1 g2 <;> simp_all <;>
      first
      | linarith
      | (intro hx; linarith)
      | (constructor <;> intro hx <;> linarith)
      | (constructor <;> linarith)
  · refine ⟨?_, ?_, ?_, ?_⟩
    · unfold tm_label
      split_ifs with g1 g2 g3 <;> simp_all <;>
      first
      | linarith
      | (intro hx; linarith)
      | (constructor <;> intro hx <;> linarith)
      | (constructor <;> linarith)
    · unfold tm_label
      split_ifs with g1 g2 g3 g4 <;> simp_all <;>
      first
      | linarith
      | (intro hx; linarith)
      | (constructor <;> intro hx <;> linarith)
      | (constructor <;> linarith)
    · unfold tm_label
      split_ifs with g1 g2 g3 g4 <;> simp_all <;>
      first
      | linarith
      | (intro hx; linarith)
      | (constructor <;> intro hx <;> linarith)
      | (constructor <;> linarith)
    · intro h10 h7 h3 havg
      have hd : dir_balance scores = 2 / 5 := by
        unfold dir_balance
        rw [if_pos hlen, h10, h7, h3]
        norm_num
      have hnr : avg_strength_norm scores = 3 / 8 := by
        unfold avg_strength_norm
        rw [havg]
        norm_num
      have hmc : m_composite scores = 39 / 100 := by
        unfold m_composite
        rw [hd, hnr]
        norm_num
      have ht : tm_score scores = 139 / 2 := by
        unfold tm_score
        rw [hmc]
        norm_num
      refine ⟨hd, hnr, hmc, ht, ?_⟩
      unfold tm_label
      rw [ht]
      norm_num

/-- The spec's sentiment scenario rendered as a score list: 10 approved
records, 7 bullish averaging +1.5 and 3 bearish averaging -1 (the aggregator
consumes the numeric Score column, so the per-group averages are realized
directly as column values). -/
def scenarioScores : List ℚ :=
  [3 / 2, 3 / 2, 3 / 2, 3 / 2, 3 / 2, 3 / 2, 3 / 2, -1, -1, -1]

unseal Rat.add Rat.mul Rat.sub Rat.inv in
/-- Witness for C3 at the spec's concrete scenario list. -/
theorem claim_C3_witness :
    dir_balance scenarioScores = 2 / 5 ∧ m_composite scenarioScores = 39 / 100 ∧
      tm_score scenarioScores = 139 / 2 ∧ tm_label scenarioScores = "VIÉS DE ALTA" := by
  have h := (claim_C3_sentiment scenarioScores (by decide)).2.2.2.2.2.2
    (by decide) (by decide) (by decide) (by decide)
  exact ⟨h.1, h.2.2.1, h.2.2.2.1, h.2.2.2.2⟩

/-! ### Claims about no-signal records and the approved set -/

theorem classify_setup_none_eq (s : Snapshot)
    (h : (classify_setup s).direction = TrendDirection.none) :
    classify_setup s = setupWait := by
  unfold classify_setup at h ⊢
  split_ifs at h ⊢ <;> first | rfl | simp_all

theorem bull_count_append_zero (scores : List ℚ) :
    bull_count (scores ++ [0]) = bull_count scores := by
  unfold bull_count
  rw [List.filter_append]
  simp

theorem bear_count_append_zero (scores : List ℚ) :
    bear_count (scores ++ [0]) = bear_count scores := by
  unfold bear_count
  rw [List.filter_append]
  simp

theorem counts_le_length (scores : List ℚ) :
    bull_count scores + bear_count scores ≤ scores.length := by
  unfold bull_count bear_count
  induction scores with
  | nil => simp
  | cons x xs ih =>
    by_cases h1 : (0 : ℚ) < x
    · have h2 : ¬ x < 0 := by linarith
      simp [List.filter_cons, h1, h2]
      omega
    · by_cases h2 : x < 0 <;> simp [List.filter_cons, h1, h2] <;> omega

theorem abs_sum_le_twice_length (scores : List ℚ)
    (h : ∀ x ∈ scores, -2 ≤ x ∧ x ≤ 2) :
    |scores.sum| ≤ 2 * (scores.length : ℚ) := by
  induction scores with
  | nil => simp
  | cons x xs ih =>
    have hx := h x (List.mem_cons_self x xs)
    have hxs := ih (fun y hy => h y (List.mem_cons_of_mem x hy))
    simp only [List.sum_cons, List.length_cons]
    calc |x + xs.sum| ≤ |x| + |xs.sum| := abs_add x xs.sum
      _ ≤ 2 + 2 * (xs.length : ℚ) := add_le_add (abs_le.mpr ⟨hx.1, hx.2⟩) hxs
      _ = 2 * ((xs.length + 1 : ℕ) : ℚ) := by push_cast; ring

theorem dir_balance_bound (scores : List ℚ) (hne : scores ≠ []) :
    |dir_balance scores| ≤ 1 := by
  have hlen : 0 < scores.length := List.length_pos.mpr hne
  have hlq : (0 : ℚ) < (scores.length : ℚ) := by exact_mod_cast hlen
  have hcle := counts_le_length scores
  have hble : (bull_count scores : ℚ) ≤ (scores.length : ℚ) := by
    exact_mod_cast le_trans (Nat.le_add_right _ _) hcle
  have hbre : (bear_count scores : ℚ) ≤ (scores.length : ℚ) := by
    exact_mod_cast le_trans (Nat.le_add_left _ _) hcle
  have hb0 : (0 : ℚ) ≤ (bull_count scores : ℚ) := by positivity
  have hbr0 : (0 : ℚ) ≤ (bear_count scores : ℚ) := by positivity
  unfold dir_balance
  rw [if_pos hlen, abs_div, abs_of_pos hlq, div_le_one hlq, abs_le]
  constructor <;> linarith

theorem avg_strength_norm_bound (scores : List ℚ) (hne : scores ≠ [])
    (h : ∀ x ∈ scores, -2 ≤ x ∧ x ≤ 2) :
    |avg_strength_norm scores| ≤ 1 := by
  have hlen : 0 < scores.length := List.length_pos.mpr hne
  have hlq : (0 : ℚ) < (scores.length : ℚ) := by exact_mod_cast hlen
  unfold avg_strength_norm avg_strength_raw
  rw [abs_div, abs_div, abs_of_pos hlq]
  rw [div_le_one (by norm_num : (0 : ℚ) < |(2 : ℚ)|)]
  have h2 : |(2 : ℚ)| = 2 := by norm_num
  rw [h2, div_le_iff hlq]
  have := abs_sum_le_twice_length scores h
  linarith

theorem m_composite_bound (scores : List ℚ) (hne : scores ≠ [])
    (h : ∀ x ∈ scores, -2 ≤ x ∧ x ≤ 2) :
    |m_composite scores| ≤ 1 := by
  have hd := dir_balance_bound scores hne
  have ha := avg_strength_norm_bound scores hne h
  have habs := abs_add (6 / 10 * dir_balance scores) (4 / 10 * avg_strength_norm scores)
  have h1 : |6 / 10 * dir_balance scores| = 6 / 10 * |dir_balance scores| := by
    rw [abs_mul]
    norm_num
  have h2 : |4 / 10 * avg_strength_norm scores| = 4 / 10 * |avg_strength_norm scores| := by
    rw [abs_mul]
    norm_num
  rw [h1, h2] at habs
  unfold m_composite
  linarith

theorem m_composite_append_zero (scores : List ℚ) (hne : scores ≠ []) :
    m_composite (scores ++ [0]) =
      m_composite scores * ((scores.length : ℚ) / ((scores.length : ℚ) + 1)) := by
  have hlen : 0 < scores.length := List.length_pos.mpr hne
  have hlq : (0 : ℚ) < (scores.length : ℚ) := by exact_mod_cast hlen
  have hlq1 : (0 : ℚ) < (scores.length : ℚ) + 1 := by linarith
  have hlen' : 0 < (scores ++ [0]).length := by simp
  unfold m_composite dir_balance avg_strength_norm avg_strength_raw
  rw [if_pos hlen, if_pos hlen', bull_count_append_zero, bear_count_append_zero]
  have hsum : (scores ++ [0]).sum = scores.sum := by simp
  have hlen2 : ((scores ++ [0]).length : ℚ) = (scores.length : ℚ) + 1 := by
    simp
  rw [hsum, hlen2]
  field_simp
  ring

theorem tm_score_unclamped (scores : List ℚ) (hb : |m_composite scores| ≤ 1) :
    tm_score scores = (m_composite scores + 1) * 50 := by
  rw [abs_le] at hb
  unfold tm_score
  rw [min_eq_right (by linarith), max_eq_right (by linarith)]

theorem flat_count_append_zero (scores : List ℚ) :
    flat_count (scores ++ [0]) = flat_count scores + 1 := by
  have hc := counts_le_length scores
  unfold flat_count
  rw [bull_count_append_zero, bear_count_append_zero, List.length_append]
  simp only [List.length_singleton]
  omega

theorem dir_balance_append_zero_le (scores : List ℚ) (hne : scores ≠ []) :
    |dir_balance (scores ++ [0])| ≤ |dir_balance scores| := by
  have hlen : 0 < scores.length := List.length_pos.mpr hne
  have hlq : (0 : ℚ) < (scores.length : ℚ) := by exact_mod_cast hlen
  have hlq1 : (0 : ℚ) < (scores.length : ℚ) + 1 := by linarith
  have hlen' : 0 < (scores ++ [0]).length := by simp
  unfold dir_balance
  rw [if_pos hlen, if_pos hlen', bull_count_append_zero, bear_count_append_zero]
  have hlen2 : (((scores ++ [0]).length : ℕ) : ℚ) = (scores.length : ℚ) + 1 := by simp
  rw [hlen2, abs_div, abs_div, abs_of_pos hlq, abs_of_pos hlq1]
  exact div_le_div_of_nonneg_left (abs_nonneg _) hlq (by linarith)

theorem m_composite_append_zero_le (scores : List ℚ) (hne : scores ≠ []) :
    |m_composite (scores ++ [0])| ≤ |m_composite scores| := by
  have hlen : 0 < scores.length := List.length_pos.mpr hne
  have hlq : (0 : ℚ) < (scores.length : ℚ) := by exact_mod_cast hlen
  rw [m_composite_append_zero scores hne, abs_mul]
  have hq : |(scores.length : ℚ) / ((scores.length : ℚ) + 1)| ≤ 1 := by
    rw [abs_div, abs_of_pos hlq, abs_of_pos (by linarith : (0:ℚ) < (scores.length : ℚ) + 1)]
    rw [div_le_one (by linarith)]
    linarith
  calc |m_composite scores| * |(scores.length : ℚ) / ((scores.length : ℚ) + 1)|
      ≤ |m_composite scores| * 1 := mul_le_mul_of_nonneg_left hq (abs_nonneg _)
    _ = |m_composite scores| := mul_one _

theorem tm_score_append_zero_toward_50 (scores : List ℚ) (hne : scores ≠ [])
    (h : ∀ x ∈ scores, -2 ≤ x ∧ x ≤ 2) :
    |tm_score (scores ++ [0]) - 50| ≤ |tm_score scores - 50| := by
  have hb := m_composite_bound scores hne h
  have hle := m_composite_append_zero_le scores hne
  have hb' : |m_composite (scores ++ [0])| ≤ 1 := le_trans hle hb
  rw [tm_score_unclamped scores hb, tm_score_unclamped (scores ++ [0]) hb']
  have e1 : (m_composite (scores ++ [0]) + 1) * 50 - 50 = 50 * m_composite (scores ++ [0]) := by
    ring
  have e2 : (m_composite scores + 1) * 50 - 50 = 50 * m_composite scores := by ring
  rw [e1, e2, abs_mul, abs_mul]
  have h50 : |(50 : ℚ)| = 50 := by norm_num
  rw [h50]
  exact mul_le_mul_of_nonneg_left hle (by norm_num)

/-- C10: a record whose classifier direction is "none" (label "Aguardar",
score 0) is marked risk-approved without the Risk Veto Filter being invoked —
formally, the outcome of `analyze_ticker` does not depend on the filter
function at all for such a series, and the emitted record carries
`Filtro_OK = true` — so the record always belongs to the risk-approved set
`df_valid` fed to the Sentiment Aggregator, where it counts toward the total
as a neutral (bull and bear counts unchanged, flat count incremented) and
pulls `dir_balance` and the thermometer score toward the neutral value 50. -/
theorem claim_C10_no_signal_neutral
    (fil fil2 : TrendDirection → Option ℚ → Option ℚ → Option ℚ → Bool × String)
    (ticker : String) (df : List PriceBar) (r : ScanRecord) (results : List ScanRecord)
    (scores : List ℚ)
    (hdir : (classify_setup (snapshotOf df)).direction = TrendDirection.none) :
    analyze_ticker_with fil ticker df = analyze_ticker_with fil2 ticker df
    ∧ (analyze_ticker ticker df = some r →
        r.filtro_ok = true ∧ r.estrategia = "Aguardar" ∧ r.score = 0 ∧
          (r ∈ results → r ∈ df_valid results))
    ∧ (scores ≠ [] → (∀ x ∈ scores, -2 ≤ x ∧ x ≤ 2) →
        bull_count (scores ++ [0]) = bull_count scores
        ∧ bear_count (scores ++ [0]) = bear_count scores
        ∧ flat_count (scores ++ [0]) = flat_count scores + 1
        ∧ |dir_balance (scores ++ [0])| ≤ |dir_balance scores|
        ∧ |tm_score (scores ++ [0]) - 50| ≤ |tm_score scores - 50|) := by
  refine ⟨?_, ?_, ?_⟩
  · simp [analyze_ticker_with, hdir]
  · intro hr
    by_cases hl : df.length < MA_LONG + 5
    · simp [analyze_ticker, analyze_ticker_with, hl] at hr
    · have hsw := classify_setup_none_eq _ hdir
      simp only [analyze_ticker, analyze_ticker_with, hl, if_false, hdir,
        if_true, Option.some.injEq] at hr
      subst hr
      rw [hsw]
      refine ⟨rfl, rfl, rfl, ?_⟩
      intro hmem
      unfold df_valid
      rw [List.mem_filter]
      exact ⟨hmem, rfl⟩
  · intro hne h
    exact ⟨bull_count_append_zero scores, bear_count_append_zero scores,
      flat_count_append_zero scores, dir_balance_append_zero_le scores hne,
      tm_score_append_zero_toward_50 scores hne h⟩

/-- A filter that vetoes everything (used to exhibit that no-signal records
never consult the filter). -/
def filVeto : TrendDirection → Option ℚ → Option ℚ → Option ℚ → Bool × String :=
  fun _ _ _ _ => (false, "veto")

/-- A filter that approves everything. -/
def filPass : TrendDirection → Option ℚ → Option ℚ → Option ℚ → Bool × String :=
  fun _ _ _ _ => (true, "-")

/-- A 205-bar constant series; its snapshot has price = ma200, so neither
trend condition holds and the classifier leaves direction "none". -/
def flatSeries : List PriceBar := List.replicate 205 ⟨1, 1, 1⟩

/-- The record `analyze_ticker` emits for `flatSeries`. -/
def flatRecord : ScanRecord :=
  ⟨"T", 1, "Aguardar", "-", "-", "-", true, 0, "#ffffff", "#000000"⟩

set_option maxRecDepth 8000 in
unseal Rat.add Rat.mul Rat.sub Rat.inv in
/-- Witness for C10: on the flat series the scan result is identical under
the always-veto and the always-pass filter, the emitted no-signal record is
risk-approved and a member of `df_valid`, and appending its neutral score to
the approved scores [2, -1] leaves bull/bear counts unchanged and moves the
thermometer score toward 50. -/
theorem claim_C10_witness :
    analyze_ticker_with filVeto "T" flatSeries = analyze_ticker_with filPass "T" flatSeries
    ∧ flatRecord.filtro_ok = true ∧ flatRecord.estrategia = "Aguardar"
    ∧ flatRecord.score = 0 ∧ flatRecord ∈ df_valid [flatRecord]
    ∧ bull_count ([2, -1] ++ [0]) = bull_count [2, -1]
    ∧ flat_count ([2, -1] ++ [0]) = flat_count [2, -1] + 1
    ∧ |tm_score ([2, -1] ++ [0]) - 50| ≤ |tm_score [2, -1] - 50| := by
  have h := claim_C10_no_signal_neutral filVeto filPass "T" flatSeries flatRecord
    [flatRecord] [2, -1] (by decide)
  have hrec := h.2.1 (by decide)
  have hagg := h.2.2 (by decide) (by decide)
  exact ⟨h.1, hrec.1, hrec.2.1, hrec.2.2.1, hrec.2.2.2 (by decide),
    hagg.1, hagg.2.2.1, hagg.2.2.2.2⟩
